import Mathlib

/-
Verification of the Terminal Session Manager and its Plugin Pipeline
(src/src-tauri/src/commands.rs of haomiao33/chatshell).

The Rust code is shallowly embedded: the trait TerminalPlugin becomes a
record of pure hook functions over a per-plugin private state type, the
HashMap of sessions becomes an association list with HashMap semantics
(lookup of the first matching key, in-place update, insert-replace,
remove), and the side effects of the operations (plugin hook calls and
raw PTY writes) are reified as an event trace so that temporal claims
("hooks run before the bytes are written") become statements about the
order of events in the returned list.
-/

namespace ChatShell

/-- One observable effect of a manager operation: a plugin hook call
(identified by the plugin name as returned by TerminalPlugin::name) or a
raw write of bytes to a session's PTY master. -/
inductive Event where
  | hookCommandStart (plugin : String) (command : String) (sessionId : String)
  | hookSessionStart (plugin : String) (sessionId : String)
  | hookSessionEnd (plugin : String) (sessionId : String)
  | ptyWrite (sessionId : String) (data : String)
deriving DecidableEq

/-- The trait TerminalPlugin (commands.rs lines 52-61) over a private
state type sigma: each hook takes the plugin state, the hook arguments,
and returns the updated state; on_output additionally returns the
transformed chunk.  The default bodies mirror the Rust defaults: every
hook keeps the state (the Rust defaults have empty bodies) and on_output
returns the chunk unchanged (output.to_string in the source). -/
structure PluginImpl (sigma : Type) where
  name : String
  on_command_start : sigma → String → String → sigma := fun s _ _ => s
  on_output : sigma → String → String → sigma × String := fun s out _ => (s, out)
  on_session_start : sigma → String → sigma := fun s _ => s
  on_session_end : sigma → String → sigma := fun s _ => s

/-- A boxed plugin instance, Box dyn TerminalPlugin in the source: a
state type, the hook implementations, and the current private state. -/
structure Plugin : Type 1 where
  sigma : Type
  impl : PluginImpl sigma
  st : sigma

/-- The plugin name, TerminalPlugin::name. -/
def Plugin.name (p : Plugin) : String := p.impl.name

/-- Call on_command_start on a boxed plugin, mutating its state in place
as the Rust loop does. -/
def Plugin.runCommandStart (p : Plugin) (command sessionId : String) : Plugin :=
  { p with st := p.impl.on_command_start p.st command sessionId }

/-- Call on_output on a boxed plugin: the updated plugin plus the
transformed chunk. -/
def Plugin.runOutput (p : Plugin) (out sessionId : String) : Plugin × String :=
  let r := p.impl.on_output p.st out sessionId
  ({ p with st := r.1 }, r.2)

/-- Call on_session_start on a boxed plugin. -/
def Plugin.runSessionStart (p : Plugin) (sessionId : String) : Plugin :=
  { p with st := p.impl.on_session_start p.st sessionId }

/-- Call on_session_end on a boxed plugin. -/
def Plugin.runSessionEnd (p : Plugin) (sessionId : String) : Plugin :=
  { p with st := p.impl.on_session_end p.st sessionId }

/-- HistoryPlugin (commands.rs lines 63-86): state is the history vector;
on_command_start pushes the command when its trim is non-empty; all other
hooks are the trait defaults. -/
def historyImpl : PluginImpl (List String) :=
  { name := "history"
    on_command_start := fun h command _ =>
      if command.trim.isEmpty then h else h ++ [command] }

/-- The boxed HistoryPlugin as created by HistoryPlugin::new: empty
history. -/
def historyPlugin : Plugin := ⟨List String, historyImpl, []⟩

/-- ColorPlugin (commands.rs lines 88-100): stateless; on_output returns
the chunk unchanged (output.to_string); other hooks are the defaults. -/
def colorImpl : PluginImpl Unit :=
  { name := "color"
    on_output := fun s out _ => (s, out) }

/-- The boxed ColorPlugin. -/
def colorPlugin : Plugin := ⟨Unit, colorImpl, ()⟩

/-- TerminalConfig (commands.rs lines 15-22); geometry as Nat (u16 in the
source; no arithmetic is done on it, so no overflow modelling is
needed). -/
structure TerminalConfig where
  shell : String
  env : List (String × String)
  working_dir : Option String
  columns : Nat
  rows : Nat
deriving DecidableEq

/-- The state of one PTY master handle that the embedding tracks: the
geometry last pushed by openpty or resize, and the log of raw byte
strings written to it (each write_to_session call appends one entry). -/
structure PtyState where
  rows : Nat
  cols : Nat
  written : List String
deriving DecidableEq

/-- TerminalSession (commands.rs lines 43-49); the AppHandle output sink
is reified in the event traces instead of being stored. -/
structure TerminalSession : Type 1 where
  id : String
  pty : PtyState
  config : TerminalConfig
  plugins : List Plugin

/-- TerminalManager (commands.rs lines 103-106): the session map, as an
association list with HashMap semantics, and the active-session
pointer. -/
structure TerminalManager : Type 1 where
  sessions : List (String × TerminalSession)
  active_session : Option String

/-- HashMap.get: first entry with the given key. -/
def lookupIn (sessionId : String) :
    List (String × TerminalSession) → Option TerminalSession
  | [] => none
  | kv :: rest => if kv.1 = sessionId then some kv.2 else lookupIn sessionId rest

/-- HashMap.get_mut followed by a write through the reference: replace
the entry at the given key (the first occurrence) by the new session. -/
def updatePair (sessionId : String) (s : TerminalSession) :
    List (String × TerminalSession) → List (String × TerminalSession)
  | [] => []
  | kv :: rest =>
      if kv.1 = sessionId then (sessionId, s) :: rest
      else kv :: updatePair sessionId s rest

/-- HashMap.remove: drop the entry at the given key.  HashMap keys are
unique, so dropping every occurrence of the key coincides with HashMap
semantics on every reachable map. -/
def removePair (sessionId : String) :
    List (String × TerminalSession) → List (String × TerminalSession)
  | [] => []
  | kv :: rest =>
      if kv.1 = sessionId then removePair sessionId rest
      else kv :: removePair sessionId rest

/-- HashMap.insert: add the entry, replacing any existing one at that
key. -/
def insertPair (sessionId : String) (s : TerminalSession)
    (l : List (String × TerminalSession)) : List (String × TerminalSession) :=
  (sessionId, s) :: removePair sessionId l

/-- TerminalManager::new (commands.rs lines 109-114). -/
def TerminalManager.new : TerminalManager :=
  { sessions := [], active_session := none }

/-- TerminalManager::get_active_session (commands.rs lines 279-281). -/
def TerminalManager.get_active_session (m : TerminalManager) : Option String :=
  m.active_session

/-- TerminalManager::write_to_session (commands.rs lines 228-242): look
the session up; if absent return the "Session not found" error and leave
everything unchanged; otherwise append the raw bytes to the session's
PTY (the libc write) and record the write event.  OS-level write failure
(ret below 0) is not modelled: the claims quantify over successful
writes. -/
def TerminalManager.write_to_session (m : TerminalManager)
    (sessionId data : String) :
    TerminalManager × (List Event × Except String Unit) :=
  match lookupIn sessionId m.sessions with
  | some s =>
      let s2 := { s with pty := { s.pty with written := s.pty.written ++ [data] } }
      ({ m with sessions := updatePair sessionId s2 m.sessions },
       ([Event.ptyWrite sessionId data], Except.ok ()))
  | none => (m, ([], Except.error "Session not found"))

/-- TerminalManager::resize_session (commands.rs lines 244-261): look the
session up; if absent return the "Session not found" error; otherwise
push the new geometry to the PTY handle and update the stored config
rows and columns. -/
def TerminalManager.resize_session (m : TerminalManager)
    (sessionId : String) (cols rows : Nat) :
    TerminalManager × Except String Unit :=
  match lookupIn sessionId m.sessions with
  | some s =>
      let s2 := { s with
        pty := { s.pty with rows := rows, cols := cols }
        config := { s.config with rows := rows, columns := cols } }
      ({ m with sessions := updatePair sessionId s2 m.sessions }, Except.ok ())
  | none => (m, Except.error "Session not found")

/-- TerminalManager::close_session (commands.rs lines 263-277): remove
the session from the map; if it was absent return the "Session not
found" error; otherwise run on_session_end on each of its plugins in
chain order (the session is then dropped) and clear active_session if it
pointed at this id. -/
def TerminalManager.close_session (m : TerminalManager) (sessionId : String) :
    TerminalManager × (List Event × Except String Unit) :=
  match lookupIn sessionId m.sessions with
  | some s =>
      let events := s.plugins.map (fun p => Event.hookSessionEnd p.name sessionId)
      ({ sessions := removePair sessionId m.sessions
         active_session :=
           if m.active_session = some sessionId then none else m.active_session },
       (events, Except.ok ()))
  | none => (m, ([], Except.error "Session not found"))

/-- TerminalManager::set_active_session (commands.rs lines 283-290). -/
def TerminalManager.set_active_session (m : TerminalManager)
    (sessionId : String) : TerminalManager × Except String Unit :=
  if (lookupIn sessionId m.sessions).isSome then
    ({ m with active_session := some sessionId }, Except.ok ())
  else (m, Except.error "Session not found")

/-- The plugin chain instantiated by create_session (commands.rs lines
148-150): a fresh HistoryPlugin then a ColorPlugin. -/
def defaultPluginChain : List Plugin := [historyPlugin, colorPlugin]

/-- TerminalManager::create_session (commands.rs lines 116-177) on the
success path: the fresh uuid is taken as a parameter; the PTY is opened
at the configured geometry, the default plugin chain is instantiated,
the output listener is spawned (its run is modelled by listenerStep
below), every plugin's on_session_start runs in chain order, the session
is inserted into the map and made active, and the id is returned. -/
def TerminalManager.create_session (m : TerminalManager)
    (config : TerminalConfig) (sessionId : String) :
    TerminalManager × (List Event × String) :=
  let events := defaultPluginChain.map
    (fun p => Event.hookSessionStart p.name sessionId)
  let plugins1 := defaultPluginChain.map (fun p => p.runSessionStart sessionId)
  let session : TerminalSession :=
    { id := sessionId
      pty := { rows := config.rows, cols := config.columns, written := [] }
      config := config
      plugins := plugins1 }
  ({ sessions := insertPair sessionId session m.sessions
     active_session := some sessionId },
   (events, sessionId))

/-- The plugin-processing loop of the output listener (commands.rs lines
201-204): thread the chunk through the chain left to right, each
plugin's returned text becoming the next plugin's input, mutating each
plugin's state in place. -/
def runOutputChain (plugins : List Plugin) (chunk sessionId : String) :
    List Plugin × String :=
  match plugins with
  | [] => ([], chunk)
  | p :: rest =>
      let r := p.runOutput chunk sessionId
      let rr := runOutputChain rest r.2 sessionId
      (r.1 :: rr.1, rr.2)

/-- One successful non-empty read of the output listener (commands.rs
lines 194-215), starting from the lossily decoded chunk text: lock the
manager; if the session is still in the map, run the chunk through its
plugin chain (storing the mutated plugins back); otherwise forward the
raw text untransformed.  The result is the updated manager and the text
emitted to the terminal-output sink. -/
def listenerStep (m : TerminalManager) (sessionId : String) (output : String) :
    TerminalManager × String :=
  match lookupIn sessionId m.sessions with
  | some s =>
      let r := runOutputChain s.plugins output sessionId
      ({ m with sessions := updatePair sessionId { s with plugins := r.1 } m.sessions },
       r.2)
  | none => (m, output)

/-- The Tauri command run_command_pty (commands.rs lines 301-318): with
an active session, run on_command_start on every plugin of that session
in chain order, then write the command text with a newline appended;
with no active session, fail. -/
def run_command_pty (m : TerminalManager) (command : String) :
    TerminalManager × (List Event × Except String Unit) :=
  match m.active_session with
  | some sessionId =>
      let hooked :=
        match lookupIn sessionId m.sessions with
        | some s =>
            let plugins2 := s.plugins.map (fun (p : Plugin) => p.runCommandStart command sessionId)
            let s2 := { s with plugins := plugins2 }
            ({ m with sessions := updatePair sessionId s2 m.sessions },
             s.plugins.map (fun (p : Plugin) => Event.hookCommandStart p.name command sessionId))
        | none => (m, [])
      let r := hooked.1.write_to_session sessionId (command ++ "\n")
      (r.1, (hooked.2 ++ r.2.1, r.2.2))
  | none => (m, ([], Except.error "No active terminal session"))

/-- The Tauri command send_input (commands.rs lines 342-351): with an
active session, write the input verbatim; no hook runs and no newline is
appended. -/
def send_input (m : TerminalManager) (input : String) :
    TerminalManager × (List Event × Except String Unit) :=
  match m.active_session with
  | some sessionId => m.write_to_session sessionId input
  | none => (m, ([], Except.error "No active terminal session"))

/-- A plugin whose state the active-session pointer invariant proofs and
the spec examples need: stateless, with an arbitrary pure on_output
transform (the uppercasing P1 of the spec example is an instance). -/
def outputTransformPlugin (nm : String) (f : String → String) : Plugin :=
  ⟨Unit, { name := nm, on_output := fun s out _ => (s, f out) }, ()⟩

/-- Uppercasing over the character list (the example transform of the
spec, written so that it reduces definitionally). -/
def upperAscii (s : String) : String := String.mk (s.data.map Char.toUpper)

/-- The spec example plugin P1: uppercases each chunk. -/
def upperPlugin : Plugin := outputTransformPlugin "upper" upperAscii

/-- The spec example plugin P2: prepends a star to each chunk. -/
def starPlugin : Plugin := outputTransformPlugin "star" (fun out => "*" ++ out)

/-- A concrete TerminalConfig for the witness scenarios. -/
def cfg0 : TerminalConfig :=
  { shell := "/bin/bash", env := [], working_dir := none, columns := 80, rows := 24 }

/-- The concrete manager obtained by creating one session with id "a"
from the empty manager. -/
def mgr1 : TerminalManager := (TerminalManager.new.create_session cfg0 "a").1

/-- The session stored in mgr1 under id "a": the default plugin chain
after its on_session_start round. -/
def sessA : TerminalSession :=
  { id := "a"
    pty := { rows := 24, cols := 80, written := [] }
    config := cfg0
    plugins := defaultPluginChain.map (fun p => p.runSessionStart "a") }

/-- A session carrying the spec example chain P1 (uppercase) then P2
(star). -/
def chainDemoSess : TerminalSession :=
  { id := "s1"
    pty := { rows := 24, cols := 80, written := [] }
    config := cfg0
    plugins := [upperPlugin, starPlugin] }

/-- A concrete manager whose only session is chainDemoSess under id
"s1". -/
def chainDemoMgr : TerminalManager :=
  { sessions := [("s1", chainDemoSess)]
    active_session := some "s1" }

/-- The invariant of claim C6: the active-session pointer, when set,
references a key present in the session map. -/
def ActiveInv (m : TerminalManager) : Prop :=
  ∀ sessionId, m.active_session = some sessionId →
    (lookupIn sessionId m.sessions).isSome

/-- A plugin whose on_output returns the chunk unchanged, whatever its
state does: the observable identity property of claim C8. -/
def IdentityOutput (p : Plugin) : Prop :=
  ∀ chunk sessionId, (p.runOutput chunk sessionId).2 = chunk

/-- The strong references to one session's reference-counted PTY master
slot (Arc Mutex Box dyn MasterPty): the TerminalSession stored in the
map owns one (commands.rs line 45 / 159), and the output listener's
spawned closure owns one for its whole run — the clone made at line 182
is moved into the tokio task at line 184 and lives until the loop
breaks. -/
structure PtyArcRefs where
  mapEntry : Bool
  listenerTask : Bool
deriving DecidableEq

/-- The strong count of the PTY slot under those two possible owners. -/
def PtyArcRefs.strongCount (r : PtyArcRefs) : Nat :=
  (if r.mapEntry then 1 else 0) + (if r.listenerTask then 1 else 0)

/-- Effect of close_session (commands.rs lines 263-277) on the PTY
references: removing the map entry drops the session and with it the
session's Arc clone; the function neither signals nor joins the listener
task, so the task's clone survives the call. -/
def closeSessionPtyRefs (r : PtyArcRefs) : PtyArcRefs :=
  { r with mapEntry := false }

/-- Looking up the removed key fails. -/
theorem lookupIn_removePair_self (sessionId : String) :
    ∀ l, lookupIn sessionId (removePair sessionId l) = none := by
  intro l
  induction l with
  | nil => rfl
  | cons kv rest ih =>
      by_cases h : kv.1 = sessionId
      · simp [removePair, h, ih]
      · simp [removePair, lookupIn, h, ih]

/-- Removing one key leaves every other lookup unchanged. -/
theorem lookupIn_removePair_ne (sessionId sid2 : String) (h : sid2 ≠ sessionId) :
    ∀ l, lookupIn sid2 (removePair sessionId l) = lookupIn sid2 l := by
  intro l
  induction l with
  | nil => rfl
  | cons kv rest ih =>
      by_cases hk : kv.1 = sessionId
      · have h2 : ¬ sessionId = sid2 := fun hc => h hc.symm
        simp [removePair, lookupIn, hk, h2, ih]
      · simp [removePair, lookupIn, hk, ih]

/-- Updating a present key makes its lookup return the new session. -/
theorem lookupIn_updatePair_self (sessionId : String) (s s0 : TerminalSession) :
    ∀ l, lookupIn sessionId l = some s0 →
      lookupIn sessionId (updatePair sessionId s l) = some s := by
  intro l
  induction l with
  | nil => intro h; cases h
  | cons kv rest ih =>
      intro h
      by_cases hk : kv.1 = sessionId
      · simp [updatePair, hk, lookupIn]
      · simp [lookupIn, hk] at h
        simp [updatePair, lookupIn, hk, ih h]

/-- Updating one key leaves every other lookup unchanged. -/
theorem lookupIn_updatePair_ne (sessionId sid2 : String) (s : TerminalSession)
    (h : sid2 ≠ sessionId) :
    ∀ l, lookupIn sid2 (updatePair sessionId s l) = lookupIn sid2 l := by
  intro l
  induction l with
  | nil => rfl
  | cons kv rest ih =>
      by_cases hk : kv.1 = sessionId
      · have : ¬ sessionId = sid2 := fun hc => h hc.symm
        have hkv : ¬ kv.1 = sid2 := by
          intro hc
          exact h (hc ▸ hk)
        simp [updatePair, lookupIn, hk, this, hkv]
      · simp [updatePair, lookupIn, hk, ih]

/-- C3: for a session id absent from the map, write_to_session,
resize_session, close_session and set_active_session all return the
"Session not found" error and return the manager — session map and
active-session pointer — unchanged. -/
theorem C3_absent_id_errors (m : TerminalManager) (sessionId : String)
    (h : lookupIn sessionId m.sessions = none) :
    (∀ data, m.write_to_session sessionId data
        = (m, ([], Except.error "Session not found"))) ∧
    (∀ cols rows, m.resize_session sessionId cols rows
        = (m, Except.error "Session not found")) ∧
    m.close_session sessionId = (m, ([], Except.error "Session not found")) ∧
    m.set_active_session sessionId = (m, Except.error "Session not found") := by
  refine ⟨fun data => ?_, fun cols rows => ?_, ?_, ?_⟩ <;>
    simp [TerminalManager.write_to_session, TerminalManager.resize_session,
      TerminalManager.close_session, TerminalManager.set_active_session, h]

/-- Witness for C3: the empty manager and the absent id "s0". -/
theorem C3_absent_id_errors_witness :
    (TerminalManager.new.write_to_session "s0" "x"
        = (TerminalManager.new, ([], Except.error "Session not found"))) ∧
    (TerminalManager.new.resize_session "s0" 120 40
        = (TerminalManager.new, Except.error "Session not found")) ∧
    (TerminalManager.new.close_session "s0"
        = (TerminalManager.new, ([], Except.error "Session not found"))) ∧
    (TerminalManager.new.set_active_session "s0"
        = (TerminalManager.new, Except.error "Session not found")) := by
  have h := C3_absent_id_errors TerminalManager.new "s0" rfl
  exact ⟨h.1 "x", h.2.1 120 40, h.2.2.1, h.2.2.2⟩

/-- C5: create_session returns the fresh id, that id is registered in
the session map, and get_active_session immediately afterwards returns
exactly that id. -/
theorem C5_create_session_activates
    (m : TerminalManager) (config : TerminalConfig) (sessionId : String) :
    (m.create_session config sessionId).2.2 = sessionId ∧
    (lookupIn sessionId (m.create_session config sessionId).1.sessions).isSome ∧
    (m.create_session config sessionId).1.get_active_session = some sessionId := by
  refine ⟨rfl, ?_, rfl⟩
  simp [TerminalManager.create_session, insertPair, lookupIn]

/-- C10: when the listener reads a chunk for a session id no longer in
the map, the chunk is still emitted, verbatim and with no plugin
transform, and the manager is untouched. -/
theorem C10_orphan_chunk_emitted_raw (m : TerminalManager)
    (sessionId output : String)
    (h : lookupIn sessionId m.sessions = none) :
    listenerStep m sessionId output = (m, output) := by
  simp [listenerStep, h]

/-- Witness for C10: the empty manager and an arbitrary chunk. -/
theorem C10_orphan_chunk_emitted_raw_witness :
    listenerStep TerminalManager.new "gone" "raw bytes"
      = (TerminalManager.new, "raw bytes") :=
  C10_orphan_chunk_emitted_raw TerminalManager.new "gone" "raw bytes" rfl

/-- C4: for a registered session, close_session runs on_session_end on
every plugin of that session in chain order, removes the session from
the map (leaving every other entry in place), and clears the
active-session pointer exactly when it pointed at this id. -/
theorem C4_close_session_effects (m : TerminalManager) (sessionId : String)
    (s : TerminalSession) (h : lookupIn sessionId m.sessions = some s) :
    (m.close_session sessionId).2.1
        = s.plugins.map (fun p => Event.hookSessionEnd p.name sessionId) ∧
    (m.close_session sessionId).2.2 = Except.ok () ∧
    lookupIn sessionId (m.close_session sessionId).1.sessions = none ∧
    (∀ sid2, sid2 ≠ sessionId →
        lookupIn sid2 (m.close_session sessionId).1.sessions
          = lookupIn sid2 m.sessions) ∧
    (m.close_session sessionId).1.get_active_session
        = (if m.get_active_session = some sessionId then none
           else m.get_active_session) := by
  refine ⟨?_, ?_, ?_, fun sid2 h2 => ?_, ?_⟩
  · simp [TerminalManager.close_session, h]
  · simp [TerminalManager.close_session, h]
  · simp [TerminalManager.close_session, h, lookupIn_removePair_self]
  · simp [TerminalManager.close_session, h, lookupIn_removePair_ne sessionId sid2 h2]
  · simp [TerminalManager.close_session, TerminalManager.get_active_session, h]

/-- Witness for C4: closing the active session "a" of mgr1 notifies the
history then the color plugin, empties the map entry, leaves the absent
id "b" untouched, and clears the active pointer. -/
theorem C4_close_session_effects_witness :
    (mgr1.close_session "a").2.1
        = [Event.hookSessionEnd "history" "a", Event.hookSessionEnd "color" "a"] ∧
    (mgr1.close_session "a").2.2 = Except.ok () ∧
    lookupIn "a" (mgr1.close_session "a").1.sessions = none ∧
    lookupIn "b" (mgr1.close_session "a").1.sessions = lookupIn "b" mgr1.sessions ∧
    (mgr1.close_session "a").1.get_active_session = none := by
  have h := C4_close_session_effects mgr1 "a" sessA rfl
  refine ⟨?_, h.2.1, h.2.2.1, h.2.2.2.1 "b" (by decide), ?_⟩
  · rw [h.1]; rfl
  · rw [h.2.2.2.2]; rfl

/-- C7: for a registered session, resize_session succeeds, rewrites that
session's stored config geometry to exactly the requested columns and
rows (everything else about the session — id, plugins, shell, env,
working directory, write log — unchanged, the PTY handle carrying the
new size), leaves every other session's entry untouched and keeps the
active-session pointer. -/
theorem C7_resize_session_exact (m : TerminalManager) (sessionId : String)
    (s : TerminalSession) (cols rows : Nat)
    (h : lookupIn sessionId m.sessions = some s) :
    (m.resize_session sessionId cols rows).2 = Except.ok () ∧
    lookupIn sessionId (m.resize_session sessionId cols rows).1.sessions
        = some { s with
            pty := { s.pty with rows := rows, cols := cols }
            config := { s.config with rows := rows, columns := cols } } ∧
    (∀ sid2, sid2 ≠ sessionId →
        lookupIn sid2 (m.resize_session sessionId cols rows).1.sessions
          = lookupIn sid2 m.sessions) ∧
    (m.resize_session sessionId cols rows).1.active_session = m.active_session := by
  refine ⟨?_, ?_, fun sid2 h2 => ?_, ?_⟩
  · simp [TerminalManager.resize_session, h]
  · simp only [TerminalManager.resize_session, h]
    exact lookupIn_updatePair_self sessionId _ s m.sessions h
  · simp only [TerminalManager.resize_session, h]
    exact lookupIn_updatePair_ne sessionId sid2 _ h2 m.sessions
  · simp [TerminalManager.resize_session, h]

/-- Witness for C7: the spec example, resizing session "a" of mgr1 to
120 columns and 40 rows. -/
theorem C7_resize_session_exact_witness :
    (mgr1.resize_session "a" 120 40).2 = Except.ok () ∧
    (lookupIn "a" (mgr1.resize_session "a" 120 40).1.sessions).map
        (fun t => (t.config.columns, t.config.rows)) = some (120, 40) ∧
    lookupIn "b" (mgr1.resize_session "a" 120 40).1.sessions
        = lookupIn "b" mgr1.sessions ∧
    (mgr1.resize_session "a" 120 40).1.active_session = mgr1.active_session := by
  have h := C7_resize_session_exact mgr1 "a" sessA 120 40 rfl
  refine ⟨h.1, ?_, h.2.2.1 "b" (by decide), h.2.2.2⟩
  rw [h.2.1]
  rfl

/-- C6: each manager operation preserves the invariant that the
active-session pointer, when set, references a key present in the
session map. -/
theorem C6_active_invariant_preserved (m : TerminalManager) (h : ActiveInv m) :
    (∀ config sessionId, ActiveInv (m.create_session config sessionId).1) ∧
    (∀ sessionId, ActiveInv (m.close_session sessionId).1) ∧
    (∀ sessionId, ActiveInv (m.set_active_session sessionId).1) ∧
    (∀ sessionId cols rows, ActiveInv (m.resize_session sessionId cols rows).1) ∧
    (∀ sessionId data, ActiveInv (m.write_to_session sessionId data).1) := by
  refine ⟨?_, ?_, ?_, ?_, ?_⟩
  · intro config sessionId sid2 h2
    simp [TerminalManager.create_session] at h2 ⊢
    subst h2
    simp [insertPair, lookupIn]
  · intro sessionId sid2 h2
    cases hl : lookupIn sessionId m.sessions with
    | none =>
        simp [TerminalManager.close_session, hl] at h2 ⊢
        exact h sid2 h2
    | some s =>
        simp [TerminalManager.close_session, hl] at h2 ⊢
        by_cases ha : m.active_session = some sessionId
        · simp [ha] at h2
        · simp [ha] at h2
          have hne : sid2 ≠ sessionId := by
            intro hc
            subst hc
            exact ha h2
          rw [lookupIn_removePair_ne sessionId sid2 hne]
          exact h sid2 h2
  · intro sessionId sid2 h2
    by_cases hs : (lookupIn sessionId m.sessions).isSome
    · simp [TerminalManager.set_active_session, hs] at h2 ⊢
      subst h2
      exact hs
    · simp [TerminalManager.set_active_session, hs] at h2 ⊢
      exact h sid2 h2
  · intro sessionId cols rows sid2 h2
    cases hl : lookupIn sessionId m.sessions with
    | none =>
        simp [TerminalManager.resize_session, hl] at h2 ⊢
        exact h sid2 h2
    | some s =>
        simp [TerminalManager.resize_session, hl] at h2 ⊢
        by_cases he : sid2 = sessionId
        · subst he
          rw [lookupIn_updatePair_self sid2 _ s m.sessions hl]
          rfl
        · rw [lookupIn_updatePair_ne sessionId sid2 _ he]
          exact h sid2 h2
  · intro sessionId data sid2 h2
    cases hl : lookupIn sessionId m.sessions with
    | none =>
        simp [TerminalManager.write_to_session, hl] at h2 ⊢
        exact h sid2 h2
    | some s =>
        simp [TerminalManager.write_to_session, hl] at h2 ⊢
        by_cases he : sid2 = sessionId
        · subst he
          rw [lookupIn_updatePair_self sid2 _ s m.sessions hl]
          rfl
        · rw [lookupIn_updatePair_ne sessionId sid2 _ he]
          exact h sid2 h2

/-- Witness for C6: the invariant holds of the empty manager and is
carried through a create_session call by the theorem. -/
theorem C6_active_invariant_preserved_witness :
    ActiveInv (TerminalManager.new.create_session cfg0 "a").1 := by
  have h0 : ActiveInv TerminalManager.new := by
    intro sessionId hs
    simp [TerminalManager.new] at hs
  exact (C6_active_invariant_preserved TerminalManager.new h0).1 cfg0 "a"

/-- C1: on each listener chunk the session's plugins run in list order
with the output threaded sequentially — plugin i's returned text is
plugin i+1's input — so on_output transforms compose left to right; on
the spec example chain of an uppercaser then a star-prepender, the chunk
"ok" comes out as "*OK". -/
theorem C1_on_output_composes_left_to_right :
    (∀ (p : Plugin) (ps : List Plugin) (chunk sessionId : String),
        (runOutputChain (p :: ps) chunk sessionId).2
          = (runOutputChain ps (p.runOutput chunk sessionId).2 sessionId).2) ∧
    (∀ (m : TerminalManager) (sessionId chunk : String) (s : TerminalSession),
        lookupIn sessionId m.sessions = some s →
        (listenerStep m sessionId chunk).2
          = (runOutputChain s.plugins chunk sessionId).2) ∧
    (listenerStep chainDemoMgr "s1" "ok").2 = "*OK" := by
  refine ⟨fun p ps chunk sessionId => rfl, fun m sessionId chunk s h => ?_, ?_⟩
  · simp [listenerStep, h]
  · decide

/-- Witness for C1: the threading equation of the second conjunct
instantiated at chainDemoMgr and the chunk "hey". -/
theorem C1_on_output_composes_left_to_right_witness :
    (listenerStep chainDemoMgr "s1" "hey").2
      = (runOutputChain chainDemoSess.plugins "hey" "s1").2 :=
  C1_on_output_composes_left_to_right.2.1 chainDemoMgr "s1" "hey" chainDemoSess rfl

/-- C2: with an active registered session, run_command_pty runs
on_command_start on every plugin of that session in registration order
strictly before the single PTY write, whose bytes are the command text
with exactly one newline appended (the write log of the session grows by
exactly that entry); send_input performs one verbatim PTY write with no
newline and triggers no hook. -/
theorem C2_command_start_before_write (m : TerminalManager) (sessionId : String)
    (s : TerminalSession) (command input : String)
    (hact : m.active_session = some sessionId)
    (h : lookupIn sessionId m.sessions = some s) :
    (run_command_pty m command).2.1
        = s.plugins.map (fun p => Event.hookCommandStart p.name command sessionId)
          ++ [Event.ptyWrite sessionId (command ++ "\n")] ∧
    (run_command_pty m command).2.2 = Except.ok () ∧
    (lookupIn sessionId (run_command_pty m command).1.sessions).map
        (fun t => t.pty.written) = some (s.pty.written ++ [command ++ "\n"]) ∧
    (send_input m input).2.1 = [Event.ptyWrite sessionId input] ∧
    (send_input m input).2.2 = Except.ok () := by
  have h2 := lookupIn_updatePair_self sessionId
    { s with plugins := s.plugins.map (fun (p : Plugin) => p.runCommandStart command sessionId) }
    s m.sessions h
  have h3 := lookupIn_updatePair_self sessionId
    { s with
        plugins := s.plugins.map (fun (p : Plugin) => p.runCommandStart command sessionId)
        pty := { s.pty with written := s.pty.written ++ [command ++ "\n"] } }
    { s with plugins := s.plugins.map (fun (p : Plugin) => p.runCommandStart command sessionId) }
    (updatePair sessionId
      { s with plugins := s.plugins.map (fun (p : Plugin) => p.runCommandStart command sessionId) }
      m.sessions) h2
  refine ⟨?_, ?_, ?_, ?_, ?_⟩ <;>
    simp [run_command_pty, send_input, TerminalManager.write_to_session,
      hact, h, h2, h3]

/-- Witness for C2: submitting "ls" to mgr1 traces both hooks then the
newline-terminated write; a raw send of "q" is one verbatim write. -/
theorem C2_command_start_before_write_witness :
    (run_command_pty mgr1 "ls").2.1
        = [Event.hookCommandStart "history" "ls" "a",
           Event.hookCommandStart "color" "ls" "a",
           Event.ptyWrite "a" "ls\n"] ∧
    (run_command_pty mgr1 "ls").2.2 = Except.ok () ∧
    (send_input mgr1 "q").2.1 = [Event.ptyWrite "a" "q"] ∧
    (send_input mgr1 "q").2.2 = Except.ok () := by
  have h := C2_command_start_before_write mgr1 "a" sessA "ls" "q" rfl rfl
  refine ⟨?_, h.2.1, h.2.2.2.1, h.2.2.2.2⟩
  rw [h.1]
  rfl

/-- C8: the trait-default on_output is the identity on the chunk, and a
chain of plugins each returning the chunk unchanged — the built-in chain
of HistoryPlugin (default hook) and ColorPlugin among them — is a no-op
end to end: the listener emits exactly the chunk it read. -/
theorem C8_default_on_output_identity :
    (∀ (sigma : Type) (nm : String) (st : sigma) (out sessionId : String),
        ({ name := nm } : PluginImpl sigma).on_output st out sessionId = (st, out)) ∧
    (∀ (ps : List Plugin) (chunk sessionId : String),
        (∀ p ∈ ps, IdentityOutput p) →
        (runOutputChain ps chunk sessionId).2 = chunk) ∧
    (∀ p ∈ defaultPluginChain, IdentityOutput p) ∧
    (∀ (m : TerminalManager) (sessionId chunk : String) (s : TerminalSession),
        lookupIn sessionId m.sessions = some s →
        (∀ p ∈ s.plugins, IdentityOutput p) →
        (listenerStep m sessionId chunk).2 = chunk) := by
  have hchain : ∀ (ps : List Plugin) (chunk sessionId : String),
      (∀ p ∈ ps, IdentityOutput p) →
      (runOutputChain ps chunk sessionId).2 = chunk := by
    intro ps
    induction ps with
    | nil => intro chunk sessionId _; rfl
    | cons p rest ih =>
        intro chunk sessionId hid
        have hr : (runOutputChain (p :: rest) chunk sessionId).2
            = (runOutputChain rest (p.runOutput chunk sessionId).2 sessionId).2 := rfl
        rw [hr, hid p (List.mem_cons_self p rest) chunk sessionId]
        exact ih chunk sessionId (fun q hq => hid q (List.mem_cons_of_mem p hq))
  refine ⟨fun sigma nm st out sessionId => rfl, hchain, ?_, ?_⟩
  · intro p hp
    have he : defaultPluginChain = [historyPlugin, colorPlugin] := rfl
    rw [he, List.mem_cons, List.mem_singleton] at hp
    rcases hp with rfl | rfl
    · intro chunk sessionId; rfl
    · intro chunk sessionId; rfl
  · intro m sessionId chunk s h hid
    have he : (listenerStep m sessionId chunk).2
        = (runOutputChain s.plugins chunk sessionId).2 := by
      simp [listenerStep, h]
    rw [he]
    exact hchain s.plugins chunk sessionId hid

/-- Witness for C8: the listener step on mgr1's default chain emits the
chunk it read. -/
theorem C8_default_on_output_identity_witness :
    (listenerStep mgr1 "a" "hi\n").2 = "hi\n" := by
  have hid : ∀ p ∈ sessA.plugins, IdentityOutput p := by
    intro p hp
    have he : sessA.plugins
        = [historyPlugin.runSessionStart "a", colorPlugin.runSessionStart "a"] := rfl
    rw [he, List.mem_cons, List.mem_singleton] at hp
    rcases hp with rfl | rfl
    · intro chunk sessionId; rfl
    · intro chunk sessionId; rfl
  exact C8_default_on_output_identity.2.2.2 mgr1 "a" "hi\n" sessA rfl hid

/-- C9 is refuted by the code: close_session drops only the map entry's
Arc clone of the PTY master; the listener task's own clone (captured at
start_output_listener line 182 and moved into the tokio task) survives,
so the strong count stays at one rather than zero — the handle is not
released and the blocked read is not unblocked by the close — and the
listener, which close_session neither signals nor joins, still emits a
chunk read after the removal. -/
theorem C9_close_leaves_listener_reference :
    closeSessionPtyRefs { mapEntry := true, listenerTask := true }
        = { mapEntry := false, listenerTask := true } ∧
    (closeSessionPtyRefs { mapEntry := true, listenerTask := true }).strongCount = 1 ∧
    (listenerStep (mgr1.close_session "a").1 "a" "late chunk").2 = "late chunk" := by
  exact ⟨rfl, rfl, rfl⟩

end ChatShell
